import Mathlib

/-!
Shallow embedding of the VOKATRA checkout/payment pipeline:
`create_checkout_session.js` (checkout initiator, `handleOrder` / `handleDonation`)
and `netlify/functions/stripe_webhook.js` (payment reconciler).

JavaScript truthiness of required string fields is modelled by `""` standing
for a missing/empty field; a missing numeric `dateId` is modelled by `0`
(both are falsy in JS). Datastore and Stripe calls are modelled by explicit
state passing over a `DB` value plus fault-injection flags describing which
external call fails.
-/

namespace Vokatra

/-- A row of the `products` table (external reference entity). -/
structure Product where
  id : Nat
  name : String
  unit_price_cents : Int
  stock_qty : Int
  active : Bool
  emoji : String
  deriving Repr, DecidableEq

/-- A row of the `delivery_dates` table. -/
structure DeliveryDate where
  id : Nat
  delivery_date : String
  label : String
  active : Bool
  deriving Repr, DecidableEq

/-- One client-supplied cart line: only a product reference and a quantity
(the client never supplies a price). -/
structure CartItem where
  productId : Nat
  qty : Int
  deriving Repr, DecidableEq

/-- Client-supplied customer fields; `""` models a missing/empty (falsy) field. -/
structure Customer where
  firstName : String
  lastName : String
  address : String
  churchName : String
  sectionName : String
  phone : String
  email : String
  deriving Repr, DecidableEq

/-- Client-supplied delivery fields; `dateId = 0` models a missing (falsy) reference. -/
structure Delivery where
  address : String
  dateId : Nat
  deriving Repr, DecidableEq

/-- Client-supplied donation payload. -/
structure DonationReq where
  firstName : String
  lastName : String
  email : String
  phone : String
  church : String
  sectionN : String
  message : String
  amountCents : Int
  deriving Repr, DecidableEq

/-- A row of the `orders` table, with exactly the columns written by the code. -/
structure OrderRec where
  id : Nat
  status : String
  payment_status : String
  payment_method : String
  customer_first_name : String
  customer_last_name : String
  customer_address : String
  customer_phone : Option String
  customer_email : Option String
  church_name : String
  section_name : String
  delivery_address : String
  delivery_date_id : Nat
  currency : String
  total_amount_cents : Int
  stripe_checkout_session_id : Option String
  stripe_payment_intent_id : Option String
  updated_at : Option String
  deriving Repr, DecidableEq

/-- A row of the `order_items` table (immutable snapshot of a product line). -/
structure OrderItemRec where
  order_id : Nat
  product_id : Nat
  product_name_snapshot : String
  product_emoji_snapshot : String
  unit_price_cents_snapshot : Int
  qty : Int
  line_total_cents : Int
  deriving Repr, DecidableEq

/-- A row of the `donations` table. -/
structure DonationRec where
  id : Nat
  donor_first_name : String
  donor_last_name : String
  donor_email : Option String
  donor_phone : Option String
  church_name : Option String
  section_name : Option String
  message : Option String
  amount_cents : Int
  currency : String
  payment_status : String
  stripe_checkout_session_id : Option String
  stripe_payment_intent_id : Option String
  deriving Repr, DecidableEq

/-- The datastore: the tables touched by the two functions, plus the
id sequences used for inserted rows. -/
structure DB where
  delivery_dates : List DeliveryDate
  products : List Product
  orders : List OrderRec
  order_items : List OrderItemRec
  donations : List DonationRec
  nextOrderId : Nat
  nextDonationId : Nat
  deriving Repr, DecidableEq

/-- Fault-injection flags: which datastore call fails on this invocation. -/
structure Beh where
  dateQueryError : Bool
  productsQueryError : Bool
  orderInsertError : Bool
  itemsInsertError : Bool
  donationInsertError : Bool
  orderSessionUpdateError : Bool
  donationSessionUpdateError : Bool
  deriving Repr, DecidableEq

/-- The fault-free datastore behaviour. -/
def noFault : Beh :=
  ⟨false, false, false, false, false, false, false⟩

/-- Outcome of `stripe.checkout.sessions.create`: either it throws, or it
returns a session `{id, url}`. -/
structure StripeBeh where
  createFails : Bool
  sessionId : String
  sessionUrl : String
  deriving Repr, DecidableEq

/-- One Stripe line item as built by `handleOrder` from server-side product data. -/
structure StripeLineItem where
  currency : String
  unit_amount : Int
  name : String
  description : String
  quantity : Int
  deriving Repr, DecidableEq

/-- Body of an HTTP response from the checkout function. -/
inductive Body where
  | err (msg : String)
  | orderOk (url : String) (order_id : Nat)
  | donationOk (url : String) (donation_id : Nat)
  deriving Repr, DecidableEq

/-- A response as produced by the `response(statusCode, body)` helper. -/
structure Resp where
  statusCode : Nat
  body : Body
  deriving Repr, DecidableEq

/-- The `response` helper of `create_checkout_session.js`. -/
def response (statusCode : Nat) (body : Body) : Resp :=
  ⟨statusCode, body⟩

/-- Models `customer.phone || null` : an empty/missing string maps to `null`. -/
def strOpt (s : String) : Option String :=
  if s == "" then none else some s

/-- Models `products.find(p => p.id === cartItem.productId)`. -/
def findProduct (ps : List Product) (pid : Nat) : Option Product :=
  ps.find? (fun p => p.id == pid)

/-- The products fetched by `.from('products').select(...).in('id', productIds)`. -/
def fetchedProducts (db : DB) (cart : List CartItem) : List Product :=
  db.products.filter (fun p => (cart.map (fun c => c.productId)).contains p.id)

/-- The validation/snapshot loop of `handleOrder`: walk the cart, check each
line against the fetched products (existence, `active`, stock, positive qty,
in that order), and accumulate the order-item snapshots, the Stripe line
items and the running total. An early `return response(400, ...)` is an
`Except.error`. -/
def buildLines (fetched : List Product) :
    List CartItem → Except Resp (List OrderItemRec × List StripeLineItem × Int)
  | [] => .ok ([], [], 0)
  | it :: rest =>
    match findProduct fetched it.productId with
    | none => .error (response 400 (.err ("Produit introuvable : " ++ toString it.productId)))
    | some p =>
      if !p.active then
        .error (response 400 (.err ("Produit non disponible : " ++ p.name)))
      else if p.stock_qty < it.qty then
        .error (response 400 (.err ("Stock insuffisant pour \"" ++ p.name ++
          "\". Disponible : " ++ toString p.stock_qty ++ ", demandé : " ++ toString it.qty)))
      else if it.qty ≤ 0 then
        .error (response 400 (.err ("Quantité invalide pour : " ++ p.name)))
      else
        match buildLines fetched rest with
        | .error r => .error r
        | .ok (items, lines, total) =>
          .ok (⟨0, p.id, p.name, p.emoji, p.unit_price_cents, it.qty,
                p.unit_price_cents * it.qty⟩ :: items,
               ⟨"eur", p.unit_price_cents, p.name,
                p.emoji ++ " Projet VOKATRA – FLM Bordeaux", it.qty⟩ :: lines,
               p.unit_price_cents * it.qty + total)

/-- The `orders` row inserted by `handleOrder` (`payment_status = pending`,
total from the server-side snapshot). -/
def newOrderRow (customer : Customer) (delivery : Delivery) (total : Int) (oid : Nat) : OrderRec :=
  { id := oid
    status := "new"
    payment_status := "pending"
    payment_method := "stripe"
    customer_first_name := customer.firstName
    customer_last_name := customer.lastName
    customer_address := customer.address
    customer_phone := strOpt customer.phone
    customer_email := strOpt customer.email
    church_name := customer.churchName
    section_name := customer.sectionName
    delivery_address := delivery.address
    delivery_date_id := delivery.dateId
    currency := "EUR"
    total_amount_cents := total
    stripe_checkout_session_id := none
    stripe_payment_intent_id := none
    updated_at := none }

/-- Steps of `handleOrder` after validation: insert the order header, insert
the items (deleting the header on failure), create the Stripe session
(marking the order `failed` on failure), store the session id (result not
checked), and answer. -/
def persistOrder (customer : Customer) (delivery : Delivery)
    (items : List OrderItemRec) (total : Int)
    (db : DB) (beh : Beh) (stripe : StripeBeh) : Resp × DB :=
  if beh.orderInsertError then
    (response 500 (.err "Erreur lors de la création de la commande"), db)
  else
    let oid := db.nextOrderId
    let orderRow : OrderRec := newOrderRow customer delivery total oid
    let db1 : DB := { db with orders := db.orders ++ [orderRow], nextOrderId := oid + 1 }
    if beh.itemsInsertError then
      (response 500 (.err "Erreur lors de l\x27enregistrement des articles"),
       { db1 with orders := db1.orders.filter (fun o => !(o.id == oid)) })
    else
      let db2 : DB :=
        { db1 with order_items := db1.order_items ++ items.map (fun i => { i with order_id := oid }) }
      if stripe.createFails then
        (response 500 (.err "Erreur lors de la création du paiement Stripe"),
         { db2 with orders := db2.orders.map (fun o =>
             if o.id == oid then { o with payment_status := "failed" } else o) })
      else
        let db3 : DB :=
          if beh.orderSessionUpdateError then db2
          else { db2 with orders := db2.orders.map (fun o =>
                   if o.id == oid then { o with stripe_checkout_session_id := some stripe.sessionId } else o) }
        (response 200 (.orderOk stripe.sessionUrl oid), db3)

/-- The source's `handleOrder(cart, customer, delivery)`: field validation, delivery-date
validation, product fetch, per-line validation/snapshotting, then the
persist-and-pay steps. -/
def handleOrder (cart : List CartItem) (customer : Customer) (delivery : Delivery)
    (db : DB) (beh : Beh) (stripe : StripeBeh) : Resp × DB :=
  if customer.firstName == "" then (response 400 (.err "Prénom obligatoire"), db)
  else if customer.lastName == "" then (response 400 (.err "Nom obligatoire"), db)
  else if customer.address == "" then (response 400 (.err "Adresse obligatoire"), db)
  else if customer.churchName == "" then (response 400 (.err "Nom d\x27église obligatoire"), db)
  else if customer.sectionName == "" then (response 400 (.err "Section obligatoire"), db)
  else if delivery.address == "" then (response 400 (.err "Adresse de livraison obligatoire"), db)
  else if delivery.dateId == 0 then (response 400 (.err "Date de livraison obligatoire"), db)
  else if cart.isEmpty then (response 400 (.err "Panier vide"), db)
  else
    match (if beh.dateQueryError then none
           else db.delivery_dates.find? (fun d => d.id == delivery.dateId)) with
    | none => (response 400 (.err "Date de livraison introuvable"), db)
    | some dd =>
      if !dd.active then
        (response 400 (.err "Cette date de livraison n\x27est plus disponible"), db)
      else if beh.productsQueryError then
        (response 500 (.err "Erreur lors de la récupération des produits"), db)
      else
        match buildLines (fetchedProducts db cart) cart with
        | .error r => (r, db)
        | .ok (items, _lines, total) => persistOrder customer delivery items total db beh stripe

/-- The `donations` row inserted by `handleDonation` (`payment_status = pending`). -/
def newDonationRow (donation : DonationReq) (did : Nat) : DonationRec :=
  { id := did
    donor_first_name := donation.firstName
    donor_last_name := donation.lastName
    donor_email := strOpt donation.email
    donor_phone := strOpt donation.phone
    church_name := strOpt donation.church
    section_name := strOpt donation.sectionN
    message := strOpt donation.message
    amount_cents := donation.amountCents
    currency := "EUR"
    payment_status := "pending"
    stripe_checkout_session_id := none
    stripe_payment_intent_id := none }

/-- The source's `handleDonation(donation)`: validation, insert, Stripe session (deleting
the donation on failure), store the session id (result not checked), answer. -/
def handleDonation (donation : DonationReq) (db : DB) (beh : Beh) (stripe : StripeBeh) :
    Resp × DB :=
  if donation.firstName == "" then (response 400 (.err "Prénom obligatoire"), db)
  else if donation.lastName == "" then (response 400 (.err "Nom obligatoire"), db)
  else if donation.amountCents == 0 || donation.amountCents < 100 then
    (response 400 (.err "Montant minimum : 1 €"), db)
  else if beh.donationInsertError then
    (response 500 (.err "Erreur lors de la création du don"), db)
  else
    let did := db.nextDonationId
    let donRow : DonationRec := newDonationRow donation did
    let db1 : DB := { db with donations := db.donations ++ [donRow], nextDonationId := did + 1 }
    if stripe.createFails then
      (response 500 (.err "Erreur Stripe"),
       { db1 with donations := db1.donations.filter (fun d => !(d.id == did)) })
    else
      let db2 : DB :=
        if beh.donationSessionUpdateError then db1
        else { db1 with donations := db1.donations.map (fun d =>
                 if d.id == did then { d with stripe_checkout_session_id := some stripe.sessionId } else d) }
      (response 200 (.donationOk stripe.sessionUrl did), db2)

/-- Parsed request body of the checkout function: `{cart, customer, delivery, donation}`. -/
structure ReqBody where
  cart : List CartItem
  customer : Customer
  delivery : Delivery
  donation : Option DonationReq
  deriving Repr, DecidableEq

/-- The checkout function's `exports.handler`: POST-only, JSON parse
(`none` models a parse failure), then the donation or order branch. -/
def checkoutHandler (httpMethod : String) (body : Option ReqBody)
    (db : DB) (beh : Beh) (stripe : StripeBeh) : Resp × DB :=
  if !(httpMethod == "POST") then (response 405 (.err "Method not allowed"), db)
  else
    match body with
    | none => (response 400 (.err "Corps de requête invalide (JSON attendu)"), db)
    | some b =>
      match b.donation with
      | some d => handleDonation d db beh stripe
      | none => handleOrder b.cart b.customer b.delivery db beh stripe

/-! ## Payment reconciler (`stripe_webhook.js`) -/

/-- The Stripe session object carried by `checkout.session.*` events:
the fields read by the webhook (`id`, `payment_intent`, `metadata.type`). -/
structure StripeSession where
  id : String
  payment_intent : Option String
  metadata_type : Option String
  deriving Repr, DecidableEq

/-- A verified Stripe event, as routed by the webhook's `switch`. -/
inductive StripeEvent where
  | checkoutSessionCompleted (session : StripeSession)
  | checkoutSessionExpired (session : StripeSession)
  | paymentIntentFailed (metadata_session_id : Option String)
  | chargeRefunded (payment_intent : Option String)
  | other (t : String)
  deriving Repr, DecidableEq

/-- Result shape of the confirmation RPCs: `{success, <entity>_id}`. -/
structure RpcResult where
  success : Bool
  entity_id : Option Nat
  deriving Repr, DecidableEq

/-- Fault-injection flags for the reconciler's datastore calls: an RPC/update
returning an error object. -/
structure WBeh where
  confirmOrderRpcError : Bool
  confirmDonationRpcError : Bool
  markFailedRpcError : Bool
  refundUpdateError : Bool
  deriving Repr, DecidableEq

/-- The fault-free reconciler behaviour. -/
def wOk : WBeh := ⟨false, false, false, false⟩

/-- Decrement the stock of one line item's product. -/
def decStock (ps : List Product) (it : OrderItemRec) : List Product :=
  ps.map (fun p => if p.id == it.product_id then { p with stock_qty := p.stock_qty - it.qty } else p)

/-- Decrement stock for every line item of an order. -/
def decStockAll (ps : List Product) (items : List OrderItemRec) : List Product :=
  items.foldl decStock ps

/-- The line items belonging to an order. -/
def itemsOf (db : DB) (oid : Nat) : List OrderItemRec :=
  db.order_items.filter (fun it => it.order_id == oid)

/-- Modelled from the spec: the datastore's atomic `confirm_order_payment`
RPC, whose SQL body is not part of the sources. Per §4.2 it must, as one
atomic unit: guard that the order found by session id is still confirmable
(replays report `success=false` with no side effect), decrement each line
item's product stock by its quantity (rejecting insufficient stock), and set
`payment_status = paid` with the payment-intent id attached. -/
def confirm_order_payment (db : DB) (sessionId : String) (paymentIntent : Option String) :
    RpcResult × DB :=
  match db.orders.find? (fun o => o.stripe_checkout_session_id == some sessionId) with
  | none => (⟨false, none⟩, db)
  | some o =>
    if o.payment_status == "pending" then
      let items := itemsOf db o.id
      let ps := decStockAll db.products items
      if ps.all (fun p => 0 ≤ p.stock_qty) then
        (⟨true, some o.id⟩,
         { db with
             products := ps
             orders := db.orders.map (fun x =>
               if x.id == o.id then
                 { x with payment_status := "paid", stripe_payment_intent_id := paymentIntent }
               else x) })
      else (⟨false, some o.id⟩, db)
    else (⟨false, some o.id⟩, db)

/-- Modelled from the spec: the datastore's atomic `confirm_donation_payment`
RPC, whose SQL body is not part of the sources. Analogous to order
confirmation but with no stock side effect: guard-and-mark-paid only. -/
def confirm_donation_payment (db : DB) (sessionId : String) (paymentIntent : Option String) :
    RpcResult × DB :=
  match db.donations.find? (fun d => d.stripe_checkout_session_id == some sessionId) with
  | none => (⟨false, none⟩, db)
  | some d =>
    if d.payment_status == "pending" then
      (⟨true, some d.id⟩,
       { db with donations := db.donations.map (fun x =>
           if x.id == d.id then
             { x with payment_status := "paid", stripe_payment_intent_id := paymentIntent }
           else x) })
    else (⟨false, some d.id⟩, db)

/-- Modelled from the spec: the datastore's `mark_payment_failed` RPC, whose
SQL body is not part of the sources. An idempotent transition setting payment
status to `failed` for the record matched by session id. -/
def mark_payment_failed (db : DB) (sessionId : String) : RpcResult × DB :=
  (⟨true, none⟩,
   { db with
       orders := db.orders.map (fun o =>
         if o.stripe_checkout_session_id == some sessionId then
           { o with payment_status := "failed" } else o)
       donations := db.donations.map (fun d =>
         if d.stripe_checkout_session_id == some sessionId then
           { d with payment_status := "failed" } else d) })

/-- Outcome of one webhook sub-handler: an optional thrown error, the
datastore afterwards, and the list of datastore calls that were performed. -/
structure HOut where
  thrown : Option String
  db : DB
  calls : List String
  deriving Repr, DecidableEq

/-- The source's `handlePaymentConfirmed(session)`: dispatch on `metadata.type`; call the
atomic confirmation RPC; throw on an RPC-level error; treat `success=false`
as benign (log only). -/
def handlePaymentConfirmed (beh : WBeh) (s : StripeSession) (db : DB) : HOut :=
  let t := s.metadata_type.getD ""
  if t == "order" then
    if beh.confirmOrderRpcError then
      ⟨some "Erreur RPC confirm_order_payment", db, ["rpc confirm_order_payment"]⟩
    else
      ⟨none, (confirm_order_payment db s.id s.payment_intent).2, ["rpc confirm_order_payment"]⟩
  else if t == "donation" then
    if beh.confirmDonationRpcError then
      ⟨some "Erreur RPC confirm_donation_payment", db, ["rpc confirm_donation_payment"]⟩
    else
      ⟨none, (confirm_donation_payment db s.id s.payment_intent).2, ["rpc confirm_donation_payment"]⟩
  else
    ⟨none, db, []⟩

/-- The source's `handlePaymentFailed(sessionId)`: call `mark_payment_failed`; throw on an
RPC-level error. -/
def handlePaymentFailed (beh : WBeh) (sessionId : String) (db : DB) : HOut :=
  if beh.markFailedRpcError then
    ⟨some "Erreur RPC mark_payment_failed", db, ["rpc mark_payment_failed"]⟩
  else
    ⟨none, (mark_payment_failed db sessionId).2, ["rpc mark_payment_failed"]⟩

/-- The per-order update applied by `handleRefund`: set `payment_status` to
`refunded` (and `updated_at`) on orders matching the payment-intent id. -/
def refundUpd (pid : String) (now : String) (o : OrderRec) : OrderRec :=
  if o.stripe_payment_intent_id == some pid then
    { o with payment_status := "refunded", updated_at := some now }
  else o

/-- The source's `handleRefund(charge)`: if the charge carries a payment intent, update
the `orders` table by payment-intent id; an update error is logged, not
thrown. -/
def handleRefund (beh : WBeh) (payment_intent : Option String) (now : String) (db : DB) : HOut :=
  match payment_intent with
  | none => ⟨none, db, []⟩
  | some pid =>
    if beh.refundUpdateError then
      ⟨none, db, ["update orders refunded"]⟩
    else
      ⟨none, { db with orders := db.orders.map (refundUpd pid now) },
       ["update orders refunded"]⟩

/-- Body of a webhook HTTP response. -/
structure WResp where
  statusCode : Nat
  body : String
  deriving Repr, DecidableEq

/-- The webhook's acknowledgement step: the try/catch around event processing
turns a thrown error into a 200 error-acknowledgement; otherwise the handler
answers 200 `{received: true}`. -/
def ack (out : HOut) : WResp × DB × List String :=
  match out.thrown with
  | some _ => (⟨200, "Webhook reçu avec erreur interne"⟩, out.db, out.calls)
  | none => (⟨200, "\x7b\x22received\x22:true\x7d"⟩, out.db, out.calls)

/-- The webhook's `exports.handler`: POST-only; signature verification
(`verified = none` models `constructEvent` throwing); route by event type
inside a try/catch that turns any thrown processing error into a 200
acknowledgement; otherwise answer 200 `{received: true}`. -/
def webhookHandler (httpMethod : String) (verified : Option StripeEvent)
    (now : String) (db : DB) (beh : WBeh) : WResp × DB × List String :=
  if !(httpMethod == "POST") then (⟨405, "Method not allowed"⟩, db, [])
  else
    match verified with
    | none => (⟨400, "Webhook signature invalide"⟩, db, [])
    | some ev =>
      ack (match ev with
        | .checkoutSessionCompleted s => handlePaymentConfirmed beh s db
        | .checkoutSessionExpired s => handlePaymentFailed beh s.id db
        | .paymentIntentFailed msid =>
          match msid with
          | some sid => handlePaymentFailed beh sid db
          | none => ⟨none, db, []⟩
        | .chargeRefunded pi => handleRefund beh pi now db
        | .other _ => ⟨none, db, []⟩)

/-! ## Specification-side helpers and basic lemmas -/

/-- The required customer fields are present and non-empty. -/
def customerValid (c : Customer) : Bool :=
  !(c.firstName == "") && !(c.lastName == "") && !(c.address == "") &&
    !(c.churchName == "") && !(c.sectionName == "")

/-- The required delivery fields are present. -/
def deliveryValid (d : Delivery) : Bool :=
  !(d.address == "") && !(d.dateId == 0)

/-- One cart line passes the per-line validation of `handleOrder`: its product
is found among the fetched products, is active, has sufficient stock, and the
quantity is positive. -/
def cartLineOk (fetched : List Product) (it : CartItem) : Bool :=
  match findProduct fetched it.productId with
  | none => false
  | some p => p.active && !(decide (p.stock_qty < it.qty)) && !(decide (it.qty ≤ 0))

/-- The order-item snapshot that `handleOrder` builds for a valid cart line
(order id still unset). -/
def specItem (fetched : List Product) (it : CartItem) : OrderItemRec :=
  match findProduct fetched it.productId with
  | some p => ⟨0, p.id, p.name, p.emoji, p.unit_price_cents, it.qty, p.unit_price_cents * it.qty⟩
  | none => ⟨0, 0, "", "", 0, 0, 0⟩

/-- The Stripe line item that `handleOrder` builds for a valid cart line. -/
def specLine (fetched : List Product) (it : CartItem) : StripeLineItem :=
  match findProduct fetched it.productId with
  | some p => ⟨"eur", p.unit_price_cents, p.name, p.emoji ++ " Projet VOKATRA – FLM Bordeaux", it.qty⟩
  | none => ⟨"eur", 0, "", "", 0⟩

/-- The order total: sum over all cart lines of the server-side product's
unit price times the line's quantity. -/
def specTotal (fetched : List Product) (cart : List CartItem) : Int :=
  (cart.map (fun it => (specItem fetched it).line_total_cents)).sum

/-- The error message produced by the first failing per-line check, if any:
a distinct message per failure kind, in the source's check order. -/
def lineError (fetched : List Product) (it : CartItem) : Option String :=
  match findProduct fetched it.productId with
  | none => some ("Produit introuvable : " ++ toString it.productId)
  | some p =>
    if !p.active then some ("Produit non disponible : " ++ p.name)
    else if p.stock_qty < it.qty then
      some ("Stock insuffisant pour \"" ++ p.name ++
        "\". Disponible : " ++ toString p.stock_qty ++ ", demandé : " ++ toString it.qty)
    else if it.qty ≤ 0 then some ("Quantité invalide pour : " ++ p.name)
    else none

/-- The first per-line validation error over a whole cart. -/
def firstLineError (fetched : List Product) : List CartItem → Option String
  | [] => none
  | it :: rest =>
    match lineError fetched it with
    | some m => some m
    | none => firstLineError fetched rest

theorem lineError_none_iff (fetched : List Product) (it : CartItem) :
    lineError fetched it = none ↔ cartLineOk fetched it = true := by
  unfold lineError cartLineOk
  cases hp : findProduct fetched it.productId with
  | none => simp
  | some p =>
    by_cases ha : p.active
    · by_cases hs : p.stock_qty < it.qty
      · simp [ha, hs]
      · by_cases hq : it.qty ≤ 0 <;> simp [ha, hs, hq]
    · simp [ha]

theorem buildLines_ok (fetched : List Product) (cart : List CartItem)
    (h : cart.all (cartLineOk fetched) = true) :
    buildLines fetched cart =
      .ok (cart.map (specItem fetched), cart.map (specLine fetched), specTotal fetched cart) := by
  induction cart with
  | nil => simp [buildLines, specTotal]
  | cons it rest ih =>
    rw [List.all_cons, Bool.and_eq_true] at h
    obtain ⟨h1, h2⟩ := h
    unfold cartLineOk at h1
    unfold buildLines
    cases hp : findProduct fetched it.productId with
    | none => rw [hp] at h1; simp at h1
    | some p =>
      rw [hp] at h1
      simp only [Bool.and_eq_true, Bool.not_eq_true', decide_eq_false_iff_not] at h1
      obtain ⟨⟨ha, hs⟩, hq⟩ := h1
      rw [ih h2]
      simp [ha, hs, hq, specItem, specLine, specTotal, hp]

theorem buildLines_err (fetched : List Product) (cart : List CartItem) (m : String)
    (h : firstLineError fetched cart = some m) :
    buildLines fetched cart = .error (response 400 (.err m)) := by
  induction cart with
  | nil => simp [firstLineError] at h
  | cons it rest ih =>
    unfold firstLineError at h
    cases hl : lineError fetched it with
    | some m0 =>
      rw [hl] at h
      have hm : m0 = m := by simpa using h
      subst hm
      unfold lineError at hl
      unfold buildLines
      cases hp : findProduct fetched it.productId with
      | none =>
        rw [hp] at hl
        simp only [Option.some.injEq] at hl
        simp [hl]
      | some p =>
        rw [hp] at hl
        by_cases hA : p.active
        · by_cases hS : p.stock_qty < it.qty
          · simp [hA, hS] at hl
            simp [hA, hS, hl]
          · by_cases hQ : it.qty ≤ 0
            · simp [hA, hS, hQ] at hl
              simp [hA, hS, hQ, hl]
            · simp [hA, hS, hQ] at hl
        · simp [hA] at hl
          simp [hA, hl]
    | none =>
      rw [hl] at h
      have hok : cartLineOk fetched it = true := (lineError_none_iff fetched it).mp hl
      unfold cartLineOk at hok
      unfold buildLines
      cases hp : findProduct fetched it.productId with
      | none => rw [hp] at hok; simp at hok
      | some p =>
        rw [hp] at hok
        simp only [Bool.and_eq_true, Bool.not_eq_true', decide_eq_false_iff_not] at hok
        obtain ⟨⟨ha, hs⟩, hq⟩ := hok
        rw [ih h]
        simp [ha, hs, hq]

theorem map_ite_of_all_not {α : Type} (l : List α) (q : α → Bool) (f : α → α)
    (h : l.all (fun a => !(q a)) = true) :
    l.map (fun a => if q a then f a else a) = l := by
  induction l with
  | nil => rfl
  | cons a t ih =>
    rw [List.all_cons, Bool.and_eq_true] at h
    obtain ⟨h1, h2⟩ := h
    rw [Bool.not_eq_true'] at h1
    simp [h1, ih h2]

theorem handleOrder_valid (cart : List CartItem) (customer : Customer) (delivery : Delivery)
    (db : DB) (beh : Beh) (stripe : StripeBeh) (dd : DeliveryDate)
    (hc : customerValid customer = true)
    (hd : deliveryValid delivery = true)
    (hcart : cart ≠ [])
    (hdq : beh.dateQueryError = false)
    (hpq : beh.productsQueryError = false)
    (hdate : db.delivery_dates.find? (fun d => d.id == delivery.dateId) = some dd)
    (hact : dd.active = true) :
    handleOrder cart customer delivery db beh stripe =
      match buildLines (fetchedProducts db cart) cart with
      | .error r => (r, db)
      | .ok (items, _, total) => persistOrder customer delivery items total db beh stripe := by
  unfold handleOrder
  simp only [customerValid, Bool.and_eq_true, Bool.not_eq_true'] at hc
  obtain ⟨⟨⟨⟨hc1, hc2⟩, hc3⟩, hc4⟩, hc5⟩ := hc
  simp only [deliveryValid, Bool.and_eq_true, Bool.not_eq_true'] at hd
  obtain ⟨hd1, hd2⟩ := hd
  have hce : cart.isEmpty = false := by
    cases cart with
    | nil => exact absurd rfl hcart
    | cons a t => rfl
  simp [hc1, hc2, hc3, hc4, hc5, hd1, hd2, hce, hdq, hdate, hact, hpq]

/-- Fault scenario: the `order_items` insert fails. -/
def behItemsFail : Beh := { noFault with itemsInsertError := true }

/-- Fault scenario: the (unchecked) session-id update fails. -/
def behUpdFail : Beh :=
  { noFault with orderSessionUpdateError := true, donationSessionUpdateError := true }

theorem persistOrder_happy (customer : Customer) (delivery : Delivery)
    (items : List OrderItemRec) (total : Int) (db : DB) (stripe : StripeBeh)
    (hsf : stripe.createFails = false) :
    persistOrder customer delivery items total db noFault stripe =
      (response 200 (.orderOk stripe.sessionUrl db.nextOrderId),
       { db with
           orders := (db.orders ++ [newOrderRow customer delivery total db.nextOrderId]).map
             (fun o => if o.id == db.nextOrderId then
                { o with stripe_checkout_session_id := some stripe.sessionId } else o)
           order_items := db.order_items ++ items.map (fun i => { i with order_id := db.nextOrderId })
           nextOrderId := db.nextOrderId + 1 }) := by
  simp [persistOrder, noFault, hsf]

theorem persistOrder_itemsFail (customer : Customer) (delivery : Delivery)
    (items : List OrderItemRec) (total : Int) (db : DB) (stripe : StripeBeh) :
    persistOrder customer delivery items total db behItemsFail stripe =
      (response 500 (.err "Erreur lors de l\x27enregistrement des articles"),
       { db with
           orders := (db.orders ++ [newOrderRow customer delivery total db.nextOrderId]).filter
             (fun o => !(o.id == db.nextOrderId))
           nextOrderId := db.nextOrderId + 1 }) := by
  simp [persistOrder, behItemsFail, noFault]

theorem persistOrder_stripeFail (customer : Customer) (delivery : Delivery)
    (items : List OrderItemRec) (total : Int) (db : DB) (stripe : StripeBeh)
    (hsf : stripe.createFails = true) :
    persistOrder customer delivery items total db noFault stripe =
      (response 500 (.err "Erreur lors de la création du paiement Stripe"),
       { db with
           orders := (db.orders ++ [newOrderRow customer delivery total db.nextOrderId]).map
             (fun o => if o.id == db.nextOrderId then { o with payment_status := "failed" } else o)
           order_items := db.order_items ++ items.map (fun i => { i with order_id := db.nextOrderId })
           nextOrderId := db.nextOrderId + 1 }) := by
  simp [persistOrder, noFault, hsf]

theorem persistOrder_updFail (customer : Customer) (delivery : Delivery)
    (items : List OrderItemRec) (total : Int) (db : DB) (stripe : StripeBeh)
    (hsf : stripe.createFails = false) :
    persistOrder customer delivery items total db behUpdFail stripe =
      (response 200 (.orderOk stripe.sessionUrl db.nextOrderId),
       { db with
           orders := db.orders ++ [newOrderRow customer delivery total db.nextOrderId]
           order_items := db.order_items ++ items.map (fun i => { i with order_id := db.nextOrderId })
           nextOrderId := db.nextOrderId + 1 }) := by
  simp [persistOrder, behUpdFail, noFault, hsf]

theorem handleDonation_stripeFail (donation : DonationReq) (db : DB) (stripe : StripeBeh)
    (hf : (donation.firstName == "") = false)
    (hl : (donation.lastName == "") = false)
    (ha : 100 ≤ donation.amountCents)
    (hsf : stripe.createFails = true) :
    handleDonation donation db noFault stripe =
      (response 500 (.err "Erreur Stripe"),
       { db with
           donations := (db.donations ++ [newDonationRow donation db.nextDonationId]).filter
             (fun d => !(d.id == db.nextDonationId))
           nextDonationId := db.nextDonationId + 1 }) := by
  have h0 : (donation.amountCents == 0) = false := beq_eq_false_iff_ne.mpr (by omega)
  have h1 : decide (donation.amountCents < 100) = false := decide_eq_false (by omega)
  simp [handleDonation, noFault, hf, hl, h0, h1, hsf]

theorem handleDonation_updFail (donation : DonationReq) (db : DB) (stripe : StripeBeh)
    (hf : (donation.firstName == "") = false)
    (hl : (donation.lastName == "") = false)
    (ha : 100 ≤ donation.amountCents)
    (hsf : stripe.createFails = false) :
    handleDonation donation db behUpdFail stripe =
      (response 200 (.donationOk stripe.sessionUrl db.nextDonationId),
       { db with
           donations := db.donations ++ [newDonationRow donation db.nextDonationId]
           nextDonationId := db.nextDonationId + 1 }) := by
  have h0 : (donation.amountCents == 0) = false := beq_eq_false_iff_ne.mpr (by omega)
  have h1 : decide (donation.amountCents < 100) = false := decide_eq_false (by omega)
  simp [handleDonation, behUpdFail, noFault, hf, hl, h0, h1, hsf]

theorem handleOrder_valid_ok (cart : List CartItem) (customer : Customer) (delivery : Delivery)
    (db : DB) (beh : Beh) (stripe : StripeBeh) (dd : DeliveryDate)
    (hc : customerValid customer = true)
    (hd : deliveryValid delivery = true)
    (hcart : cart ≠ [])
    (hdq : beh.dateQueryError = false)
    (hpq : beh.productsQueryError = false)
    (hdate : db.delivery_dates.find? (fun d => d.id == delivery.dateId) = some dd)
    (hact : dd.active = true)
    (hlines : cart.all (cartLineOk (fetchedProducts db cart)) = true) :
    handleOrder cart customer delivery db beh stripe =
      persistOrder customer delivery (cart.map (specItem (fetchedProducts db cart)))
        (specTotal (fetchedProducts db cart) cart) db beh stripe := by
  rw [handleOrder_valid cart customer delivery db beh stripe dd hc hd hcart hdq hpq hdate hact,
    buildLines_ok _ _ hlines]

theorem handleOrder_invalid_line (cart : List CartItem) (customer : Customer)
    (delivery : Delivery) (db : DB) (beh : Beh) (stripe : StripeBeh) (dd : DeliveryDate)
    (m : String)
    (hc : customerValid customer = true)
    (hd : deliveryValid delivery = true)
    (hdq : beh.dateQueryError = false)
    (hpq : beh.productsQueryError = false)
    (hdate : db.delivery_dates.find? (fun d => d.id == delivery.dateId) = some dd)
    (hact : dd.active = true)
    (herr : firstLineError (fetchedProducts db cart) cart = some m) :
    handleOrder cart customer delivery db beh stripe = (response 400 (.err m), db) := by
  have hcart : cart ≠ [] := by
    intro hnil
    rw [hnil] at herr
    simp [firstLineError] at herr
  rw [handleOrder_valid cart customer delivery db beh stripe dd hc hd hcart hdq hpq hdate hact,
    buildLines_err _ _ _ herr]

/-- C1: for every valid cart (each line's product exists, is active, has
sufficient stock, and a positive quantity), `handleOrder` inserts an order
whose `total_amount_cents` equals the sum over all cart lines of the
server-side product's `unit_price_cents` times the line's `qty`; each
inserted order item's `line_total_cents` equals
`unit_price_cents_snapshot * qty`, and every snapshot price comes from the
`products` datastore (the client-side `CartItem` carries no price field at
all, so no client price can be used). -/
theorem order_total_from_server_prices
    (cart : List CartItem) (customer : Customer) (delivery : Delivery)
    (db : DB) (stripe : StripeBeh) (dd : DeliveryDate)
    (hc : customerValid customer = true)
    (hd : deliveryValid delivery = true)
    (hcart : cart ≠ [])
    (hdate : db.delivery_dates.find? (fun d => d.id == delivery.dateId) = some dd)
    (hact : dd.active = true)
    (hlines : cart.all (cartLineOk (fetchedProducts db cart)) = true)
    (hsf : stripe.createFails = false) :
    (handleOrder cart customer delivery db noFault stripe).1.statusCode = 200 ∧
    (handleOrder cart customer delivery db noFault stripe).2.order_items =
      db.order_items ++ (cart.map (specItem (fetchedProducts db cart))).map
        (fun i => { i with order_id := db.nextOrderId }) ∧
    (∃ o ∈ (handleOrder cart customer delivery db noFault stripe).2.orders,
       o.id = db.nextOrderId ∧
       o.total_amount_cents = specTotal (fetchedProducts db cart) cart) ∧
    ∀ i ∈ (cart.map (specItem (fetchedProducts db cart))).map
        (fun i => { i with order_id := db.nextOrderId }),
      i.line_total_cents = i.unit_price_cents_snapshot * i.qty ∧
      ∃ p ∈ db.products, p.id = i.product_id ∧
        i.unit_price_cents_snapshot = p.unit_price_cents := by
  have hmain := handleOrder_valid_ok cart customer delivery db noFault stripe dd
    hc hd hcart rfl rfl hdate hact hlines
  rw [persistOrder_happy customer delivery _ _ db stripe hsf] at hmain
  rw [hmain]
  refine ⟨rfl, rfl, ?_, ?_⟩
  · refine ⟨{ newOrderRow customer delivery (specTotal (fetchedProducts db cart) cart)
        db.nextOrderId with stripe_checkout_session_id := some stripe.sessionId },
      ?_, rfl, rfl⟩
    apply List.mem_map.mpr
    refine ⟨newOrderRow customer delivery (specTotal (fetchedProducts db cart) cart)
      db.nextOrderId, List.mem_append_right _ (by simp), ?_⟩
    simp [newOrderRow]
  · intro i hi
    rw [List.mem_map] at hi
    obtain ⟨j, hj, rfl⟩ := hi
    rw [List.mem_map] at hj
    obtain ⟨c, hcmem, rfl⟩ := hj
    have hok := List.all_eq_true.mp hlines c hcmem
    unfold cartLineOk at hok
    cases hp : findProduct (fetchedProducts db cart) c.productId with
    | none => rw [hp] at hok; simp at hok
    | some p =>
      constructor
      · simp [specItem, hp]
      · refine ⟨p, ?_, ?_, ?_⟩
        · have hmem : p ∈ fetchedProducts db cart := by
            unfold findProduct at hp
            exact List.mem_of_find?_eq_some hp
          unfold fetchedProducts at hmem
          exact List.mem_of_mem_filter hmem
        · simp [specItem, hp]
        · simp [specItem, hp]

/-! ## Concrete scenario used to exercise the theorems -/

/-- A concrete datastore: one active delivery date, two active products and
one inactive product, empty order/donation tables. -/
def vDB : DB :=
  { delivery_dates := [⟨1, "2025-03-01", "Mars", true⟩]
    products := [⟨1, "Riz", 1500, 5, true, "🍚"⟩, ⟨2, "Vary", 2000, 10, true, "🌾"⟩,
                 ⟨3, "Vieux", 1000, 5, false, "📦"⟩]
    orders := []
    order_items := []
    donations := []
    nextOrderId := 7
    nextDonationId := 3 }

def vDate : DeliveryDate := ⟨1, "2025-03-01", "Mars", true⟩

def vCustomer : Customer :=
  ⟨"Jean", "Rakoto", "1 rue A", "FLM Bordeaux", "Section 1", "", "jean@example.org"⟩

def vDelivery : Delivery := ⟨"2 rue B", 1⟩

def vCart : List CartItem := [⟨1, 2⟩, ⟨2, 3⟩]

def vStripe : StripeBeh := ⟨false, "cs_123", "https://pay.example/123"⟩

def vStripeFail : StripeBeh := ⟨true, "cs_123", "https://pay.example/123"⟩

def vDonation : DonationReq := ⟨"Ana", "Bema", "", "", "", "", "", 5000⟩

/-- Witness for C1: the concrete valid cart [(Riz, 2), (Vary, 3)] at prices
1500 and 2000 cents gives an order with total 3000 + 6000 = 9000. -/
theorem order_total_from_server_prices_witness :
    (handleOrder vCart vCustomer vDelivery vDB noFault vStripe).1.statusCode = 200 ∧
    (handleOrder vCart vCustomer vDelivery vDB noFault vStripe).2.order_items =
      vDB.order_items ++ (vCart.map (specItem (fetchedProducts vDB vCart))).map
        (fun i => { i with order_id := vDB.nextOrderId }) ∧
    (∃ o ∈ (handleOrder vCart vCustomer vDelivery vDB noFault vStripe).2.orders,
       o.id = vDB.nextOrderId ∧
       o.total_amount_cents = specTotal (fetchedProducts vDB vCart) vCart) ∧
    ∀ i ∈ (vCart.map (specItem (fetchedProducts vDB vCart))).map
        (fun i => { i with order_id := vDB.nextOrderId }),
      i.line_total_cents = i.unit_price_cents_snapshot * i.qty ∧
      ∃ p ∈ vDB.products, p.id = i.product_id ∧
        i.unit_price_cents_snapshot = p.unit_price_cents :=
  order_total_from_server_prices vCart vCustomer vDelivery vDB vStripe vDate
    (by decide) (by decide) (by decide) (by decide) (by decide) (by decide) (by decide)

/-- C9 (implicit): stock validation is per cart line, each line checked
independently against the same fetched `stock_qty`: for the cart
[(product 1, qty 3), (product 1, qty 3)] with stock 5, every line passes
(3 ≤ 5) although the summed quantity 6 exceeds the stock, and the order is
created (status 200, one order inserted with total 6 × 1500 = 9000). -/
theorem per_line_stock_check_allows_oversell :
    (∀ it ∈ [(⟨1, 3⟩ : CartItem), ⟨1, 3⟩], it.productId = 1 ∧ it.qty ≤ 5) ∧
    (5 : Int) < (([(⟨1, 3⟩ : CartItem), ⟨1, 3⟩]).map CartItem.qty).sum ∧
    (handleOrder [⟨1, 3⟩, ⟨1, 3⟩] vCustomer vDelivery vDB noFault vStripe).1.statusCode = 200 ∧
    (handleOrder [⟨1, 3⟩, ⟨1, 3⟩] vCustomer vDelivery vDB noFault vStripe).2.orders.map
      OrderRec.total_amount_cents = [9000] := by
  refine ⟨by decide, by decide, ?_, ?_⟩ <;> decide

/-- C2: if the order-header insert succeeds but the `order_items` insert
fails, the just-created order header is deleted before the 500 error response
is returned: afterwards the `orders` and `order_items` tables are exactly as
before, so no order header without items remains. -/
theorem order_header_rollback_on_items_failure
    (cart : List CartItem) (customer : Customer) (delivery : Delivery)
    (db : DB) (stripe : StripeBeh) (dd : DeliveryDate)
    (hc : customerValid customer = true)
    (hd : deliveryValid delivery = true)
    (hcart : cart ≠ [])
    (hdate : db.delivery_dates.find? (fun d => d.id == delivery.dateId) = some dd)
    (hact : dd.active = true)
    (hlines : cart.all (cartLineOk (fetchedProducts db cart)) = true)
    (hfresh : db.orders.all (fun o => !(o.id == db.nextOrderId)) = true) :
    (handleOrder cart customer delivery db behItemsFail stripe).1 =
      response 500 (.err "Erreur lors de l\x27enregistrement des articles") ∧
    (handleOrder cart customer delivery db behItemsFail stripe).2.orders = db.orders ∧
    (handleOrder cart customer delivery db behItemsFail stripe).2.order_items =
      db.order_items := by
  have hmain := handleOrder_valid_ok cart customer delivery db behItemsFail stripe dd
    hc hd hcart rfl rfl hdate hact hlines
  rw [persistOrder_itemsFail] at hmain
  rw [hmain]
  refine ⟨rfl, ?_, rfl⟩
  rw [List.filter_append]
  have h1 : db.orders.filter (fun o => !(o.id == db.nextOrderId)) = db.orders :=
    List.filter_eq_self.mpr (fun a ha => List.all_eq_true.mp hfresh a ha)
  have h2 : ([newOrderRow customer delivery (specTotal (fetchedProducts db cart) cart)
      db.nextOrderId]).filter (fun o => !(o.id == db.nextOrderId)) = [] := by
    simp [newOrderRow]
  rw [h1, h2, List.append_nil]

/-- Witness for C2: with the concrete valid cart and a failing items insert,
the response is the 500 items error and the tables are unchanged. -/
theorem order_header_rollback_on_items_failure_witness :
    (handleOrder vCart vCustomer vDelivery vDB behItemsFail vStripe).1 =
      response 500 (.err "Erreur lors de l\x27enregistrement des articles") ∧
    (handleOrder vCart vCustomer vDelivery vDB behItemsFail vStripe).2.orders = vDB.orders ∧
    (handleOrder vCart vCustomer vDelivery vDB behItemsFail vStripe).2.order_items =
      vDB.order_items :=
  order_header_rollback_on_items_failure vCart vCustomer vDelivery vDB vStripe vDate
    (by decide) (by decide) (by decide) (by decide) (by decide) (by decide) (by decide)

/-- C5: for every cart containing a line whose referenced product does not
exist, or is not active, or whose qty exceeds the product's stock, or whose
qty ≤ 0 (earlier validations passing), `handleOrder` returns a 400 response
whose body is the failure-kind-specific message of the first failing check
(`firstLineError` produces one distinct message per failure kind) and leaves
the datastore exactly unchanged: no order or order item is persisted. -/
theorem invalid_cart_line_rejected_no_persist
    (cart : List CartItem) (customer : Customer) (delivery : Delivery)
    (db : DB) (beh : Beh) (stripe : StripeBeh) (dd : DeliveryDate) (m : String)
    (hc : customerValid customer = true)
    (hd : deliveryValid delivery = true)
    (hdq : beh.dateQueryError = false)
    (hpq : beh.productsQueryError = false)
    (hdate : db.delivery_dates.find? (fun d => d.id == delivery.dateId) = some dd)
    (hact : dd.active = true)
    (herr : firstLineError (fetchedProducts db cart) cart = some m) :
    handleOrder cart customer delivery db beh stripe = (response 400 (.err m), db) :=
  handleOrder_invalid_line cart customer delivery db beh stripe dd m
    hc hd hdq hpq hdate hact herr

/-- Witness for C5: a cart referencing the inactive product 3 is rejected
with its distinct message and the datastore is unchanged. -/
theorem invalid_cart_line_rejected_no_persist_witness :
    handleOrder [⟨3, 1⟩] vCustomer vDelivery vDB noFault vStripe =
      (response 400 (.err "Produit non disponible : Vieux"), vDB) :=
  invalid_cart_line_rejected_no_persist [⟨3, 1⟩] vCustomer vDelivery vDB noFault vStripe
    vDate "Produit non disponible : Vieux"
    (by decide) (by decide) (by decide) (by decide) (by decide) (by decide) (by decide)

/-- C7: when Stripe session creation fails, the two paths compensate
asymmetrically: `handleOrder` keeps the order record (with its committed
items) and sets its `payment_status` to `failed` before returning 500,
whereas `handleDonation` deletes the donation record before returning 500. -/
theorem stripe_failure_compensation_asymmetry
    (cart : List CartItem) (customer : Customer) (delivery : Delivery)
    (donation : DonationReq) (db : DB) (stripe : StripeBeh) (dd : DeliveryDate)
    (hc : customerValid customer = true)
    (hd : deliveryValid delivery = true)
    (hcart : cart ≠ [])
    (hdate : db.delivery_dates.find? (fun d => d.id == delivery.dateId) = some dd)
    (hact : dd.active = true)
    (hlines : cart.all (cartLineOk (fetchedProducts db cart)) = true)
    (hsf : stripe.createFails = true)
    (hfresh : db.orders.all (fun o => !(o.id == db.nextOrderId)) = true)
    (hdf : (donation.firstName == "") = false)
    (hdl : (donation.lastName == "") = false)
    (hda : 100 ≤ donation.amountCents)
    (hfreshD : db.donations.all (fun d => !(d.id == db.nextDonationId)) = true) :
    (handleOrder cart customer delivery db noFault stripe).1 =
      response 500 (.err "Erreur lors de la création du paiement Stripe") ∧
    (handleOrder cart customer delivery db noFault stripe).2.orders =
      db.orders ++ [{ newOrderRow customer delivery
        (specTotal (fetchedProducts db cart) cart) db.nextOrderId with
          payment_status := "failed" }] ∧
    (handleOrder cart customer delivery db noFault stripe).2.order_items =
      db.order_items ++ (cart.map (specItem (fetchedProducts db cart))).map
        (fun i => { i with order_id := db.nextOrderId }) ∧
    (handleDonation donation db noFault stripe).1 = response 500 (.err "Erreur Stripe") ∧
    (handleDonation donation db noFault stripe).2.donations = db.donations := by
  have hmain := handleOrder_valid_ok cart customer delivery db noFault stripe dd
    hc hd hcart rfl rfl hdate hact hlines
  rw [persistOrder_stripeFail customer delivery _ _ db stripe hsf] at hmain
  have hdon := handleDonation_stripeFail donation db stripe hdf hdl hda hsf
  rw [hmain, hdon]
  refine ⟨rfl, ?_, rfl, rfl, ?_⟩
  · rw [List.map_append]
    have h1 : db.orders.map (fun o => if o.id == db.nextOrderId then
        { o with payment_status := "failed" } else o) = db.orders :=
      map_ite_of_all_not db.orders (fun o => o.id == db.nextOrderId)
        (fun o => { o with payment_status := "failed" }) hfresh
    have h2 : ([newOrderRow customer delivery (specTotal (fetchedProducts db cart) cart)
        db.nextOrderId]).map (fun o => if o.id == db.nextOrderId then
          { o with payment_status := "failed" } else o) =
        [{ newOrderRow customer delivery (specTotal (fetchedProducts db cart) cart)
            db.nextOrderId with payment_status := "failed" }] := by
      simp [newOrderRow]
    rw [h1, h2]
  · rw [List.filter_append]
    have h1 : db.donations.filter (fun d => !(d.id == db.nextDonationId)) = db.donations :=
      List.filter_eq_self.mpr (fun a ha => List.all_eq_true.mp hfreshD a ha)
    have h2 : ([newDonationRow donation db.nextDonationId]).filter
        (fun d => !(d.id == db.nextDonationId)) = [] := by
      simp [newDonationRow]
    rw [h1, h2, List.append_nil]

/-- Witness for C7 at the concrete cart and donation with failing Stripe. -/
theorem stripe_failure_compensation_asymmetry_witness :
    (handleOrder vCart vCustomer vDelivery vDB noFault vStripeFail).1 =
      response 500 (.err "Erreur lors de la création du paiement Stripe") ∧
    (handleOrder vCart vCustomer vDelivery vDB noFault vStripeFail).2.orders =
      vDB.orders ++ [{ newOrderRow vCustomer vDelivery
        (specTotal (fetchedProducts vDB vCart) vCart) vDB.nextOrderId with
          payment_status := "failed" }] ∧
    (handleOrder vCart vCustomer vDelivery vDB noFault vStripeFail).2.order_items =
      vDB.order_items ++ (vCart.map (specItem (fetchedProducts vDB vCart))).map
        (fun i => { i with order_id := vDB.nextOrderId }) ∧
    (handleDonation vDonation vDB noFault vStripeFail).1 = response 500 (.err "Erreur Stripe") ∧
    (handleDonation vDonation vDB noFault vStripeFail).2.donations = vDB.donations :=
  stripe_failure_compensation_asymmetry vCart vCustomer vDelivery vDonation vDB
    vStripeFail vDate (by decide) (by decide) (by decide) (by decide) (by decide)
    (by decide) (by decide) (by decide) (by decide) (by decide) (by decide) (by decide)

/-- C10: the datastore update that stores the Stripe session id onto the
order (or donation) record is not error-checked: when it fails, `handleOrder`
and `handleDonation` still return status 200 with the redirect url and the
record id, and the stored record is left without a session id. -/
theorem session_id_update_unchecked_still_200
    (cart : List CartItem) (customer : Customer) (delivery : Delivery)
    (donation : DonationReq) (db : DB) (stripe : StripeBeh) (dd : DeliveryDate)
    (hc : customerValid customer = true)
    (hd : deliveryValid delivery = true)
    (hcart : cart ≠ [])
    (hdate : db.delivery_dates.find? (fun d => d.id == delivery.dateId) = some dd)
    (hact : dd.active = true)
    (hlines : cart.all (cartLineOk (fetchedProducts db cart)) = true)
    (hsf : stripe.createFails = false)
    (hdf : (donation.firstName == "") = false)
    (hdl : (donation.lastName == "") = false)
    (hda : 100 ≤ donation.amountCents) :
    (handleOrder cart customer delivery db behUpdFail stripe).1 =
      response 200 (.orderOk stripe.sessionUrl db.nextOrderId) ∧
    (handleOrder cart customer delivery db behUpdFail stripe).2.orders =
      db.orders ++ [newOrderRow customer delivery
        (specTotal (fetchedProducts db cart) cart) db.nextOrderId] ∧
    (newOrderRow customer delivery (specTotal (fetchedProducts db cart) cart)
      db.nextOrderId).stripe_checkout_session_id = none ∧
    (handleDonation donation db behUpdFail stripe).1 =
      response 200 (.donationOk stripe.sessionUrl db.nextDonationId) ∧
    (handleDonation donation db behUpdFail stripe).2.donations =
      db.donations ++ [newDonationRow donation db.nextDonationId] ∧
    (newDonationRow donation db.nextDonationId).stripe_checkout_session_id = none := by
  have hmain := handleOrder_valid_ok cart customer delivery db behUpdFail stripe dd
    hc hd hcart rfl rfl hdate hact hlines
  rw [persistOrder_updFail customer delivery _ _ db stripe hsf] at hmain
  have hdon := handleDonation_updFail donation db stripe hdf hdl hda hsf
  rw [hmain, hdon]
  exact ⟨rfl, rfl, rfl, rfl, rfl, rfl⟩

/-- Witness for C10 at the concrete cart and donation with a failing
session-id update. -/
theorem session_id_update_unchecked_still_200_witness :
    (handleOrder vCart vCustomer vDelivery vDB behUpdFail vStripe).1 =
      response 200 (.orderOk vStripe.sessionUrl vDB.nextOrderId) ∧
    (handleOrder vCart vCustomer vDelivery vDB behUpdFail vStripe).2.orders =
      vDB.orders ++ [newOrderRow vCustomer vDelivery
        (specTotal (fetchedProducts vDB vCart) vCart) vDB.nextOrderId] ∧
    (newOrderRow vCustomer vDelivery (specTotal (fetchedProducts vDB vCart) vCart)
      vDB.nextOrderId).stripe_checkout_session_id = none ∧
    (handleDonation vDonation vDB behUpdFail vStripe).1 =
      response 200 (.donationOk vStripe.sessionUrl vDB.nextDonationId) ∧
    (handleDonation vDonation vDB behUpdFail vStripe).2.donations =
      vDB.donations ++ [newDonationRow vDonation vDB.nextDonationId] ∧
    (newDonationRow vDonation vDB.nextDonationId).stripe_checkout_session_id = none :=
  session_id_update_unchecked_still_200 vCart vCustomer vDelivery vDonation vDB
    vStripe vDate (by decide) (by decide) (by decide) (by decide) (by decide)
    (by decide) (by decide) (by decide) (by decide) (by decide)

/-! ## Reconciler claims -/

/-- C4: for every incoming webhook request whose Stripe signature
verification fails (invalid or missing `stripe-signature` proof), the handler
returns status 400, performs no datastore call, and mutates no record. -/
theorem invalid_signature_rejected_no_db_call (now : String) (db : DB) (beh : WBeh) :
    webhookHandler "POST" none now db beh = (⟨400, "Webhook signature invalide"⟩, db, []) :=
  rfl

theorem ack_status (out : HOut) : (ack out).1.statusCode = 200 := by
  unfold ack
  cases out.thrown <;> rfl

/-- C6: every webhook request that passes signature verification is answered
with status 200 — for every event kind and every fault behaviour, including
when internal processing throws: the catch logs and still returns a 200
acknowledgement body. -/
theorem authenticated_webhook_always_200 (ev : StripeEvent) (now : String)
    (db : DB) (beh : WBeh) :
    (webhookHandler "POST" (some ev) now db beh).1.statusCode = 200 := by
  show (ack _).1.statusCode = 200
  exact ack_status _

theorem find?_map_comm {α : Type} (l : List α) (g : α → α) (p : α → Bool)
    (h : ∀ a, p (g a) = p a) :
    (l.map g).find? p = (l.find? p).map g := by
  induction l with
  | nil => rfl
  | cons a t ih =>
    rw [List.map_cons]
    cases hpa : p a with
    | true =>
      rw [List.find?_cons_of_pos _ (by rw [h a, hpa]), List.find?_cons_of_pos _ hpa]
      rfl
    | false =>
      rw [List.find?_cons_of_neg _ (by rw [h a, hpa]; exact Bool.false_ne_true),
        List.find?_cons_of_neg _ (by rw [hpa]; exact Bool.false_ne_true), ih]

/-- C3: replaying the same payment-completed notification twice for the same
order decrements stock exactly once: the first delivery confirms the pending
order and decrements stock; the second delivery's `confirm_order_payment`
returns `success = false`, which `handlePaymentConfirmed` treats as benign
(no throw, no further side effect), so the webhook still acknowledges with
status 200 — while an RPC-level error makes `handlePaymentConfirmed` throw. -/
theorem payment_completed_replay_decrements_once
    (db : DB) (S : String) (PI : Option String) (now : String) (o : OrderRec)
    (hfind : db.orders.find? (fun x => x.stripe_checkout_session_id == some S) = some o)
    (hpend : o.payment_status = "pending")
    (hstock : (decStockAll db.products (itemsOf db o.id)).all
        (fun p => 0 ≤ p.stock_qty) = true) :
    (webhookHandler "POST" (some (.checkoutSessionCompleted ⟨S, PI, some "order"⟩))
        now db wOk).1.statusCode = 200 ∧
    (webhookHandler "POST" (some (.checkoutSessionCompleted ⟨S, PI, some "order"⟩))
        now db wOk).2.1.products = decStockAll db.products (itemsOf db o.id) ∧
    (confirm_order_payment
        (webhookHandler "POST" (some (.checkoutSessionCompleted ⟨S, PI, some "order"⟩))
          now db wOk).2.1 S PI).1.success = false ∧
    (webhookHandler "POST" (some (.checkoutSessionCompleted ⟨S, PI, some "order"⟩)) now
        (webhookHandler "POST" (some (.checkoutSessionCompleted ⟨S, PI, some "order"⟩))
          now db wOk).2.1 wOk).1.statusCode = 200 ∧
    (webhookHandler "POST" (some (.checkoutSessionCompleted ⟨S, PI, some "order"⟩)) now
        (webhookHandler "POST" (some (.checkoutSessionCompleted ⟨S, PI, some "order"⟩))
          now db wOk).2.1 wOk).2.1 =
      (webhookHandler "POST" (some (.checkoutSessionCompleted ⟨S, PI, some "order"⟩))
        now db wOk).2.1 ∧
    ((handlePaymentConfirmed ⟨true, false, false, false⟩ ⟨S, PI, some "order"⟩
        db).thrown).isSome = true := by
  have hconf1 : confirm_order_payment db S PI =
      (⟨true, some o.id⟩,
       { db with
           products := decStockAll db.products (itemsOf db o.id)
           orders := db.orders.map (fun x => if x.id == o.id then
             { x with payment_status := "paid", stripe_payment_intent_id := PI } else x) }) := by
    unfold confirm_order_payment
    rw [hfind]
    simp [hpend, hstock]
  have hw1 : webhookHandler "POST" (some (.checkoutSessionCompleted ⟨S, PI, some "order"⟩))
      now db wOk =
      (⟨200, "\x7b\x22received\x22:true\x7d"⟩,
       { db with
           products := decStockAll db.products (itemsOf db o.id)
           orders := db.orders.map (fun x => if x.id == o.id then
             { x with payment_status := "paid", stripe_payment_intent_id := PI } else x) },
       ["rpc confirm_order_payment"]) := by
    show ack ⟨none, (confirm_order_payment db S PI).2, ["rpc confirm_order_payment"]⟩ = _
    rw [hconf1]
    rfl
  have hfind2 : (db.orders.map (fun x => if x.id == o.id then
        { x with payment_status := "paid", stripe_payment_intent_id := PI } else x)).find?
        (fun x => x.stripe_checkout_session_id == some S) =
      some { o with payment_status := "paid", stripe_payment_intent_id := PI } := by
    rw [find?_map_comm db.orders
      (fun x => if x.id == o.id then
        { x with payment_status := "paid", stripe_payment_intent_id := PI } else x)
      (fun x => x.stripe_checkout_session_id == some S)
      (fun a => by by_cases h : a.id == o.id <;> simp [h]), hfind]
    simp
  have hconf2 : confirm_order_payment
      { db with
          products := decStockAll db.products (itemsOf db o.id)
          orders := db.orders.map (fun x => if x.id == o.id then
            { x with payment_status := "paid", stripe_payment_intent_id := PI } else x) }
      S PI =
      (⟨false, some o.id⟩,
       { db with
           products := decStockAll db.products (itemsOf db o.id)
           orders := db.orders.map (fun x => if x.id == o.id then
             { x with payment_status := "paid", stripe_payment_intent_id := PI } else x) }) := by
    unfold confirm_order_payment
    rw [hfind2]
    simp
  have hw2 : webhookHandler "POST" (some (.checkoutSessionCompleted ⟨S, PI, some "order"⟩))
      now
      { db with
          products := decStockAll db.products (itemsOf db o.id)
          orders := db.orders.map (fun x => if x.id == o.id then
            { x with payment_status := "paid", stripe_payment_intent_id := PI } else x) }
      wOk =
      (⟨200, "\x7b\x22received\x22:true\x7d"⟩,
       { db with
           products := decStockAll db.products (itemsOf db o.id)
           orders := db.orders.map (fun x => if x.id == o.id then
             { x with payment_status := "paid", stripe_payment_intent_id := PI } else x) },
       ["rpc confirm_order_payment"]) := by
    show ack ⟨none,
      (confirm_order_payment
        { db with
            products := decStockAll db.products (itemsOf db o.id)
            orders := db.orders.map (fun x => if x.id == o.id then
              { x with payment_status := "paid", stripe_payment_intent_id := PI } else x) }
        S PI).2, ["rpc confirm_order_payment"]⟩ = _
    rw [hconf2]
    rfl
  rw [hw1]
  refine ⟨rfl, rfl, ?_, ?_, ?_, rfl⟩
  · rw [hconf2]
  · rw [hw2]
  · rw [hw2]

/-- A concrete pending order awaiting payment confirmation. -/
def wOrder : OrderRec :=
  ⟨10, "new", "pending", "stripe", "Jean", "Rakoto", "1 rue A", none, none,
   "FLM Bordeaux", "Section 1", "2 rue B", 1, "EUR", 3000, some "cs_9", none, none⟩

/-- A concrete datastore holding `wOrder` and its single line item. -/
def wDB : DB :=
  { delivery_dates := []
    products := [⟨1, "Riz", 1500, 5, true, "🍚"⟩]
    orders := [wOrder]
    order_items := [⟨10, 1, "Riz", "🍚", 1500, 2, 3000⟩]
    donations := []
    nextOrderId := 11
    nextDonationId := 1 }

/-- Witness for C3 at the concrete pending order (stock 5, quantity 2). -/
theorem payment_completed_replay_decrements_once_witness :
    (webhookHandler "POST" (some (.checkoutSessionCompleted ⟨"cs_9", some "pi_9", some "order"⟩))
        "t" wDB wOk).1.statusCode = 200 ∧
    (webhookHandler "POST" (some (.checkoutSessionCompleted ⟨"cs_9", some "pi_9", some "order"⟩))
        "t" wDB wOk).2.1.products = decStockAll wDB.products (itemsOf wDB wOrder.id) ∧
    (confirm_order_payment
        (webhookHandler "POST" (some (.checkoutSessionCompleted ⟨"cs_9", some "pi_9", some "order"⟩))
          "t" wDB wOk).2.1 "cs_9" (some "pi_9")).1.success = false ∧
    (webhookHandler "POST" (some (.checkoutSessionCompleted ⟨"cs_9", some "pi_9", some "order"⟩)) "t"
        (webhookHandler "POST" (some (.checkoutSessionCompleted ⟨"cs_9", some "pi_9", some "order"⟩))
          "t" wDB wOk).2.1 wOk).1.statusCode = 200 ∧
    (webhookHandler "POST" (some (.checkoutSessionCompleted ⟨"cs_9", some "pi_9", some "order"⟩)) "t"
        (webhookHandler "POST" (some (.checkoutSessionCompleted ⟨"cs_9", some "pi_9", some "order"⟩))
          "t" wDB wOk).2.1 wOk).2.1 =
      (webhookHandler "POST" (some (.checkoutSessionCompleted ⟨"cs_9", some "pi_9", some "order"⟩))
        "t" wDB wOk).2.1 ∧
    ((handlePaymentConfirmed ⟨true, false, false, false⟩ ⟨"cs_9", some "pi_9", some "order"⟩
        wDB).thrown).isSome = true :=
  payment_completed_replay_decrements_once wDB "cs_9" (some "pi_9") "t" wOrder
    (by decide) (by decide) (by decide)

/-- A concrete datastore holding a paid donation whose stored payment-intent
id is `pi_1`. -/
def c8db : DB :=
  { delivery_dates := []
    products := []
    orders := []
    order_items := []
    donations := [⟨1, "Ana", "Bema", none, none, none, none, none, 5000, "EUR", "paid",
                   some "cs_d1", some "pi_1"⟩]
    nextOrderId := 1
    nextDonationId := 2 }

/-- Counterexample to C8 as stated: refund handling updates only the `orders`
table, never donations. A paid donation whose stored payment-intent id
matches the refunded charge's payment-intent id is left completely unchanged
(its payment status stays `paid`, not `refunded`). -/
theorem refund_ignores_donations_counterexample :
    c8db.donations.map DonationRec.stripe_payment_intent_id = [some "pi_1"] ∧
    (webhookHandler "POST" (some (.chargeRefunded (some "pi_1")))
        "2025-04-01T00:00:00Z" c8db wOk).2.1.donations = c8db.donations ∧
    c8db.donations.map DonationRec.payment_status = ["paid"] :=
  ⟨rfl, rfl, rfl⟩

/-- C8 amended: for every charge-refunded notification carrying a
payment-intent id, the handler sets `payment_status = refunded` on exactly
the orders matched by that payment-intent id (an idempotent transition keyed
by payment-intent id, not session id) and acknowledges with 200 — but it
applies only to the `orders` table: donation records are never modified by
refund handling. -/
theorem refund_marks_orders_by_intent (pid now : String) (db : DB) :
    (webhookHandler "POST" (some (.chargeRefunded (some pid))) now db wOk).1.statusCode = 200 ∧
    (webhookHandler "POST" (some (.chargeRefunded (some pid))) now db wOk).2.1.orders =
      db.orders.map (refundUpd pid now) ∧
    (webhookHandler "POST" (some (.chargeRefunded (some pid))) now db wOk).2.1.donations =
      db.donations ∧
    (webhookHandler "POST" (some (.chargeRefunded (some pid))) now
        (webhookHandler "POST" (some (.chargeRefunded (some pid))) now db wOk).2.1
        wOk).2.1.orders =
      (webhookHandler "POST" (some (.chargeRefunded (some pid))) now db wOk).2.1.orders := by
  refine ⟨rfl, rfl, rfl, ?_⟩
  show (db.orders.map (refundUpd pid now)).map (refundUpd pid now) =
    db.orders.map (refundUpd pid now)
  rw [List.map_map]
  apply List.map_congr_left
  intro a _
  show refundUpd pid now (refundUpd pid now a) = refundUpd pid now a
  unfold refundUpd
  by_cases h : a.stripe_payment_intent_id == some pid <;> simp [h]

end Vokatra
